import Mathlib

set_option autoImplicit false

/-!
Verification of the salesforce-mcp-sse server (two near-duplicate variants:
the streamable-HTTP variant in server.js and the SSE variant).  The
definitions below are shallow embeddings of the JavaScript source: JS
objects become ordered association lists with set-in-place semantics, env
configuration becomes records of Option String with JS truthiness, the
cooperative event loop becomes an explicit small-step scheduler, and
fallible backend calls become Except values.
-/

namespace SalesforceMcp

/-! ## JS object model

A JS object literal is an ordered association list.  Setting a property
that already exists overwrites its value in place (keeping its position);
setting a fresh property appends it.  Spreading an object into a literal
performs that set operation for each of its entries in order, which is the
semantics of the source expression writing Id first and then spreading the
data argument. -/

abbrev Val := String

abbrev Obj := List (String × Val)

def objSet : Obj → String → Val → Obj
  | [], k, v => [(k, v)]
  | (k1, v1) :: rest, k, v =>
    if k1 = k then (k, v) :: rest else (k1, v1) :: objSet rest k v

def objGet : Obj → String → Option Val
  | [], _ => none
  | (k1, v1) :: rest, k => if k1 = k then some v1 else objGet rest k

def objSpread (base upd : Obj) : Obj :=
  upd.foldl (fun o kv => objSet o kv.1 kv.2) base

def objKeys (o : Obj) : List String := o.map Prod.fst

/-- Payload built by the update_record handler: the source writes the
object literal with key Id mapped to recordId first and then spreads the
caller data over it. -/
def updatePayload (recordId : String) (data : Obj) : Obj :=
  objSpread [("Id", recordId)] data

theorem objGet_objSet_self (o : Obj) (k : String) (v : Val) :
    objGet (objSet o k v) k = some v := by
  induction o with
  | nil => simp [objSet, objGet]
  | cons kv rest ih =>
    obtain ⟨k1, v1⟩ := kv
    by_cases h : k1 = k
    · simp [objSet, objGet, h]
    · simp [objSet, objGet, h, ih]

theorem objGet_objSet_ne (o : Obj) (k k' : String) (v : Val) (h : k' ≠ k) :
    objGet (objSet o k v) k' = objGet o k' := by
  have hk : ¬(k = k') := fun hh => h hh.symm
  induction o with
  | nil => simp only [objSet, objGet, if_neg hk]
  | cons kv rest ih =>
    obtain ⟨k1, v1⟩ := kv
    by_cases h1 : k1 = k
    · have hk1 : ¬(k1 = k') := by rw [h1]; exact hk
      simp only [objSet, if_pos h1, objGet, if_neg hk, if_neg hk1]
    · simp only [objSet, if_neg h1, objGet]
      by_cases h2 : k1 = k'
      · simp only [if_pos h2]
      · simp only [if_neg h2, ih]

theorem objSpread_nil (base : Obj) : objSpread base [] = base := rfl

theorem objSpread_cons (base : Obj) (k : String) (v : Val) (rest : Obj) :
    objSpread base ((k, v) :: rest) = objSpread (objSet base k v) rest := rfl

theorem objKeys_cons (k1 : String) (v1 : Val) (rest : Obj) :
    objKeys ((k1, v1) :: rest) = k1 :: objKeys rest := rfl

theorem objSpread_get_notMem (upd : Obj) (base : Obj) (k : String)
    (h : k ∉ objKeys upd) :
    objGet (objSpread base upd) k = objGet base k := by
  induction upd generalizing base with
  | nil => rfl
  | cons kv rest ih =>
    obtain ⟨k1, v1⟩ := kv
    rw [objKeys_cons, List.mem_cons] at h
    push_neg at h
    rw [objSpread_cons, ih (objSet base k1 v1) h.2,
      objGet_objSet_ne base k1 k v1 h.1]

theorem objSpread_get_mem (upd : Obj) (base : Obj) (k : String) (v : Val)
    (hnd : (objKeys upd).Nodup) (hmem : (k, v) ∈ upd) :
    objGet (objSpread base upd) k = some v := by
  induction upd generalizing base with
  | nil => cases hmem
  | cons kv rest ih =>
    obtain ⟨k1, v1⟩ := kv
    rw [objKeys_cons, List.nodup_cons] at hnd
    rw [List.mem_cons] at hmem
    rcases hmem with heq | hmem
    · cases heq
      rw [objSpread_cons, objSpread_get_notMem rest (objSet base k v) k hnd.1,
        objGet_objSet_self]
    · rw [objSpread_cons]
      exact ih (objSet base k1 v1) hnd.2 hmem

/-- Claim C1 as frozen is false on the code: the update_record handler
spreads the caller data AFTER the Id entry, so a caller-supplied Id key
overrides recordId.  Concretely, with recordId 003R and data containing
Id mapped to 003X, the payload carries Id 003X, not 003R. -/
theorem update_record_id_counterexample :
    objGet (updatePayload "003R" [("Id", "003X")]) "Id" = some "003X" ∧
    (some "003X" : Option Val) ≠ some "003R" := by
  refine ⟨by decide, by decide⟩

/-- Claim C1 amended: the payload sent by update_record equals the object
with key Id mapped to recordId overwritten by the caller data map, entry by
entry.  Hence Id equals recordId exactly when the caller data lacks an Id
key; every caller-supplied entry (including a caller-supplied Id) appears
with its own value; and no other key appears. -/
theorem update_record_payload_spec (recordId : String) (data : Obj)
    (hnd : (objKeys data).Nodup) :
    ("Id" ∉ objKeys data →
      objGet (updatePayload recordId data) "Id" = some recordId) ∧
    (∀ k v, (k, v) ∈ data → objGet (updatePayload recordId data) k = some v) ∧
    (∀ k, k ≠ "Id" → k ∉ objKeys data →
      objGet (updatePayload recordId data) k = none) := by
  refine ⟨fun h => ?_, fun k v hmem => ?_, fun k hk h => ?_⟩
  · rw [updatePayload, objSpread_get_notMem data [("Id", recordId)] "Id" h]
    simp [objGet]
  · exact objSpread_get_mem data [("Id", recordId)] k v hnd hmem
  · rw [updatePayload, objSpread_get_notMem data [("Id", recordId)] k h]
    have hne : ¬("Id" = k) := fun hh => hk hh.symm
    simp only [objGet, if_neg hne]

/-- Witness for the amended C1 statement at a concrete input. -/
theorem update_record_payload_spec_witness :
    objGet (updatePayload "003R" [("Name", "Acme")]) "Id" = some "003R" ∧
    objGet (updatePayload "003R" [("Name", "Acme")]) "Name" = some "Acme" := by
  have h := update_record_payload_spec "003R" [("Name", "Acme")] (by decide)
  exact ⟨h.1 (by decide), h.2.1 "Name" "Acme" (by decide)⟩

/-! ## Environment configuration and the connection provider

Configuration is read from the process environment: each variable is
either absent or a string, and the source tests it with JS truthiness
(absent and the empty string are falsy).  The JS or-else operator on such
a value, and JS coercion of an absent value to the string undefined when
concatenated, are modelled explicitly. -/

def envSet : Option String → Bool
  | none => false
  | some s => !(s == "")

def jsOr (o : Option String) (d : String) : String :=
  match o with
  | none => d
  | some s => if s == "" then d else s

def jsStr : Option String → String
  | none => "undefined"
  | some s => s

structure SfEnv where
  refreshToken : Option String
  clientId : Option String
  clientSecret : Option String
  callbackUrl : Option String
  accessToken : Option String
  instanceUrl : Option String
  username : Option String
  password : Option String
  securityToken : Option String
  deriving DecidableEq, Repr

/-- Backend round trips a connection attempt performs before returning. -/
inductive SfCall where
  | identityCall
  | loginCall (username password : String)
  deriving DecidableEq, Repr

inductive CredStrategy where
  | refresh
  | accessToken
  | password
  deriving DecidableEq, Repr

/-- Structured description of the single connection attempt made by one
invocation of connectToSalesforce: which credential flow it runs, the
OAuth client configuration it builds, and the backend round trips it
performs. -/
inductive ConnAttempt where
  | refreshFlow (clientId redirectUri : String) (clientSecret : Option String)
      (instanceUrl : Option String) (refreshToken : String)
      (roundTrips : List SfCall)
  | accessTokenFlow (instanceUrl : Option String) (accessToken : String)
      (roundTrips : List SfCall)
  | passwordFlow (instanceUrl : Option String) (roundTrips : List SfCall)
  deriving DecidableEq, Repr

/-- Shallow embedding of connectToSalesforce (identical in both variants):
refresh-token flow if that variable is truthy, performing one identity
round trip; else access-token flow with no round trip; else
username/password login with the security token concatenated after the
password. -/
def connectToSalesforce (env : SfEnv) : ConnAttempt :=
  if envSet env.refreshToken then
    ConnAttempt.refreshFlow (jsOr env.clientId "PlatformCLI")
      (jsOr env.callbackUrl "https://login.salesforce.com/services/oauth2/success")
      (if envSet env.clientSecret then env.clientSecret else none)
      env.instanceUrl (jsStr env.refreshToken) [SfCall.identityCall]
  else if envSet env.accessToken then
    ConnAttempt.accessTokenFlow env.instanceUrl (jsStr env.accessToken) []
  else
    ConnAttempt.passwordFlow env.instanceUrl
      [SfCall.loginCall (jsStr env.username)
        (jsStr env.password ++ jsStr env.securityToken)]

def strategyOf : ConnAttempt → CredStrategy
  | ConnAttempt.refreshFlow _ _ _ _ _ _ => CredStrategy.refresh
  | ConnAttempt.accessTokenFlow _ _ _ => CredStrategy.accessToken
  | ConnAttempt.passwordFlow _ _ => CredStrategy.password

def attemptCalls : ConnAttempt → List SfCall
  | ConnAttempt.refreshFlow _ _ _ _ _ c => c
  | ConnAttempt.accessTokenFlow _ _ c => c
  | ConnAttempt.passwordFlow _ c => c

/-- Claim C5: each invocation of connectToSalesforce attempts exactly one
credential strategy, selected by strict precedence (refresh token, else
access token, else username/password); the refresh flow performs one
identity validation round trip, the access-token flow performs none, and
the password flow performs a single login whose password argument is the
configured password with the security token concatenated as a suffix.  At
most one backend round trip happens per attempt, so strategies are never
chained within one invocation. -/
theorem connect_strategy_precedence (env : SfEnv) :
    (envSet env.refreshToken = true →
      strategyOf (connectToSalesforce env) = CredStrategy.refresh ∧
      attemptCalls (connectToSalesforce env) = [SfCall.identityCall]) ∧
    (envSet env.refreshToken = false → envSet env.accessToken = true →
      strategyOf (connectToSalesforce env) = CredStrategy.accessToken ∧
      attemptCalls (connectToSalesforce env) = []) ∧
    (envSet env.refreshToken = false → envSet env.accessToken = false →
      strategyOf (connectToSalesforce env) = CredStrategy.password ∧
      attemptCalls (connectToSalesforce env) =
        [SfCall.loginCall (jsStr env.username)
          (jsStr env.password ++ jsStr env.securityToken)]) ∧
    (attemptCalls (connectToSalesforce env)).length ≤ 1 := by
  cases h1 : envSet env.refreshToken
  · cases h2 : envSet env.accessToken
    · simp [connectToSalesforce, h1, h2, strategyOf, attemptCalls]
    · simp [connectToSalesforce, h1, h2, strategyOf, attemptCalls]
  · simp [connectToSalesforce, h1, strategyOf, attemptCalls]

def envRefresh : SfEnv :=
  { refreshToken := some "rt", clientId := none, clientSecret := none,
    callbackUrl := none, accessToken := some "at",
    instanceUrl := some "https://example.my.salesforce.com",
    username := none, password := none, securityToken := none }

def envAccess : SfEnv :=
  { refreshToken := none, clientId := none, clientSecret := none,
    callbackUrl := none, accessToken := some "at",
    instanceUrl := some "https://example.my.salesforce.com",
    username := none, password := none, securityToken := none }

def envPassword : SfEnv :=
  { refreshToken := none, clientId := none, clientSecret := none,
    callbackUrl := none, accessToken := none,
    instanceUrl := some "https://example.my.salesforce.com",
    username := some "u", password := some "pw",
    securityToken := some "tok" }

/-- Witness for C5 at three concrete configurations, one per strategy. -/
theorem connect_strategy_precedence_witness :
    strategyOf (connectToSalesforce envRefresh) = CredStrategy.refresh ∧
    strategyOf (connectToSalesforce envAccess) = CredStrategy.accessToken ∧
    strategyOf (connectToSalesforce envPassword) = CredStrategy.password ∧
    attemptCalls (connectToSalesforce envPassword) =
      [SfCall.loginCall "u" "pwtok"] := by
  refine ⟨((connect_strategy_precedence envRefresh).1 (by decide)).1,
    ((connect_strategy_precedence envAccess).2.1 (by decide) (by decide)).1,
    ((connect_strategy_precedence envPassword).2.2.1 (by decide) (by decide)).1,
    ?_⟩
  have h := ((connect_strategy_precedence envPassword).2.2.1 (by decide) (by decide)).2
  simpa [envPassword, jsStr] using h

/-! ## Object metadata projection (get_object_metadata) -/

structure SfField where
  name : String
  label : String
  ftype : String
  nillable : Bool
  deriving DecidableEq, Repr

structure DescribeResult where
  name : String
  label : String
  fields : List SfField
  deriving DecidableEq, Repr

structure SimpleField where
  name : String
  label : String
  ftype : String
  required : Bool
  deriving DecidableEq, Repr

structure SimpleMeta where
  name : String
  label : String
  fields : List SimpleField
  deriving DecidableEq, Repr

/-- Projection applied to each described field: name, label and type are
copied, and required is the negation of the backend nillable flag. -/
def simplifyField (f : SfField) : SimpleField :=
  { name := f.name, label := f.label, ftype := f.ftype,
    required := !f.nillable }

/-- The simplified metadata object built by the get_object_metadata
handler from the backend describe result. -/
def simplifyMetadata (m : DescribeResult) : SimpleMeta :=
  { name := m.name, label := m.label, fields := m.fields.map simplifyField }

theorem simplifyMetadata_length (m : DescribeResult) :
    (simplifyMetadata m).fields.length = m.fields.length := by
  simp [simplifyMetadata]

/-- Claim C9: every field of the described object is projected to a
record whose required flag is the negation of the backend nillable flag,
with name, label and type copied through; no field is dropped or added
(the projected list has the same length, position by position). -/
theorem get_object_metadata_required (m : DescribeResult) (i : Nat)
    (h : i < m.fields.length) :
    ∃ hs : i < (simplifyMetadata m).fields.length,
      ((simplifyMetadata m).fields.get ⟨i, hs⟩).required
          = !(m.fields.get ⟨i, h⟩).nillable ∧
      ((simplifyMetadata m).fields.get ⟨i, hs⟩).name
          = (m.fields.get ⟨i, h⟩).name ∧
      ((simplifyMetadata m).fields.get ⟨i, hs⟩).label
          = (m.fields.get ⟨i, h⟩).label ∧
      ((simplifyMetadata m).fields.get ⟨i, hs⟩).ftype
          = (m.fields.get ⟨i, h⟩).ftype := by
  refine ⟨by rw [simplifyMetadata_length]; exact h, ?_, ?_, ?_, ?_⟩ <;>
    simp [simplifyMetadata, simplifyField]

def sampleDescribe : DescribeResult :=
  { name := "Account", label := "Account",
    fields :=
      [{ name := "Name", label := "Account Name", ftype := "string",
         nillable := false },
       { name := "Phone", label := "Phone", ftype := "phone",
         nillable := true }] }

/-- Witness for C9 on a concrete describe result: a non-nillable field
becomes required and a nillable one becomes optional. -/
theorem get_object_metadata_required_witness :
    ((simplifyMetadata sampleDescribe).fields.get ⟨0, by decide⟩).required
        = true ∧
    ((simplifyMetadata sampleDescribe).fields.get ⟨1, by decide⟩).required
        = false := by
  obtain ⟨hs0, hreq0, _⟩ := get_object_metadata_required sampleDescribe 0 (by decide)
  obtain ⟨hs1, hreq1, _⟩ := get_object_metadata_required sampleDescribe 1 (by decide)
  exact ⟨hreq0.trans (by decide), hreq1.trans (by decide)⟩

/-! ## SOSL construction (search_records) -/

/-- The SOSL string built by the search_records handler.  The objects
argument defaults to the built-in three-element list when absent, exactly
as the source or-else does (an absent argument is the only falsy case a
validated array argument can take). -/
def buildSosl (searchTerm : String) (objects : Option (List String)) : String :=
  let searchObjects := objects.getD ["Account", "Contact", "Opportunity"]
  "FIND \x7b" ++ searchTerm ++ "\x7d IN ALL FIELDS RETURNING " ++
    String.intercalate ", " searchObjects

/-- Claim C8: the SOSL string sent to the backend is the FIND template
with the search term interpolated unescaped and the objects joined by a
comma; when the objects argument is absent the joined list is exactly
Account, Contact, Opportunity in that order. -/
theorem search_records_sosl (searchTerm : String) (objects : List String) :
    buildSosl searchTerm (some objects) =
      "FIND \x7b" ++ searchTerm ++ "\x7d IN ALL FIELDS RETURNING " ++
        String.intercalate ", " objects ∧
    buildSosl searchTerm none =
      buildSosl searchTerm (some ["Account", "Contact", "Opportunity"]) ∧
    String.intercalate ", " ["Account", "Contact", "Opportunity"] =
      "Account, Contact, Opportunity" := by
  exact ⟨rfl, rfl, by decide⟩

/-! ## Tool dispatch

Backend calls are modelled as Except values: an error value is a thrown
exception carrying a message.  The five tool bodies are identical in the
two variants and are shared as runTool.  The SSE variant wraps the
connection preamble and the switch in a try/catch converting any thrown
error into an error-flagged content result; the streamable-HTTP variant
registers the same five bodies with no try/catch, so a thrown error
escapes the handler (modelled as an Except.error outcome). -/

abbrev Conn := Nat

structure SfError where
  message : String
  deriving DecidableEq, Repr

structure Backend where
  connect : Except SfError Conn
  query : Conn → String → Except SfError String
  describe : Conn → String → Except SfError DescribeResult
  stringifyMeta : SimpleMeta → String
  create : Conn → String → Obj → Except SfError String
  update : Conn → String → Obj → Except SfError String
  search : Conn → String → Except SfError String

inductive ToolCall where
  | soqlQuery (query : String)
  | getObjectMetadata (objectName : String)
  | createRecord (objectName : String) (data : Obj)
  | updateRecord (objectName : String) (recordId : String) (data : Obj)
  | searchRecords (searchTerm : String) (objects : Option (List String))

/-- A request reaching the SSE variant switch: either one of the five
known tools or an unrecognized tool name (the switch default). -/
inductive SseRequest where
  | known (call : ToolCall)
  | unknownTool (name : String)

structure ToolResult where
  content : List String
  isError : Bool
  deriving DecidableEq, Repr

/-- Shared bodies of the five tool handlers, run against an established
connection.  Each forwards to the corresponding backend operation and
wraps the serialized result in a single text content block. -/
def runTool (be : Backend) (conn : Conn) (call : ToolCall) :
    Except SfError ToolResult :=
  match call with
  | ToolCall.soqlQuery q =>
    (be.query conn q).map fun txt => { content := [txt], isError := false }
  | ToolCall.getObjectMetadata objectName =>
    (be.describe conn objectName).map fun md =>
      { content := [be.stringifyMeta (simplifyMetadata md)], isError := false }
  | ToolCall.createRecord objectName data =>
    (be.create conn objectName data).map fun txt =>
      { content := [txt], isError := false }
  | ToolCall.updateRecord objectName recordId data =>
    (be.update conn objectName (updatePayload recordId data)).map fun txt =>
      { content := [txt], isError := false }
  | ToolCall.searchRecords searchTerm objects =>
    (be.search conn (buildSosl searchTerm objects)).map fun txt =>
      { content := [txt], isError := false }

structure DispatchOut where
  sfConnection : Option Conn
  result : ToolResult
  connectCalls : Nat
  deriving DecidableEq, Repr

/-- SSE variant dispatch boundary: inside the try block the handler
lazily connects when the cache is empty (assigning the cache only after
the connect resolves), then runs the switch; the catch clause converts
any thrown error into an error-flagged result prefixed Error.  The
connectCalls field counts how many times connectToSalesforce was invoked
during this one dispatch. -/
def handleToolCallSse (be : Backend) (sfConnection : Option Conn)
    (req : SseRequest) : DispatchOut :=
  match sfConnection with
  | some c =>
    match req with
    | SseRequest.unknownTool n =>
      ⟨some c, { content := ["Unknown tool: " ++ n], isError := true }, 0⟩
    | SseRequest.known call =>
      match runTool be c call with
      | Except.ok r => ⟨some c, r, 0⟩
      | Except.error e =>
        ⟨some c, { content := ["Error: " ++ e.message], isError := true }, 0⟩
  | none =>
    match be.connect with
    | Except.error e =>
      ⟨none, { content := ["Error: " ++ e.message], isError := true }, 1⟩
    | Except.ok c =>
      match req with
      | SseRequest.unknownTool n =>
        ⟨some c, { content := ["Unknown tool: " ++ n], isError := true }, 1⟩
      | SseRequest.known call =>
        match runTool be c call with
        | Except.ok r => ⟨some c, r, 1⟩
        | Except.error e =>
          ⟨some c, { content := ["Error: " ++ e.message], isError := true }, 1⟩

structure StreamDispatchOut where
  sfConnection : Option Conn
  outcome : Except SfError ToolResult
  connectCalls : Nat
  deriving Repr

/-- Streamable-HTTP variant handler: the same lazy-connect preamble and
tool body, but with no try/catch anywhere in the handler, so a thrown
error leaves the handler as an Except.error outcome. -/
def handleToolCallStreamable (be : Backend) (sfConnection : Option Conn)
    (call : ToolCall) : StreamDispatchOut :=
  match sfConnection with
  | some c => ⟨some c, runTool be c call, 0⟩
  | none =>
    match be.connect with
    | Except.error e => ⟨none, Except.error e, 1⟩
    | Except.ok c => ⟨some c, runTool be c call, 1⟩

def failingBackend : Backend :=
  { connect := Except.ok 0,
    query := fun _ _ => Except.error { message := "INVALID_TYPE" },
    describe := fun _ _ => Except.error { message := "INVALID_TYPE" },
    stringifyMeta := fun _ => "",
    create := fun _ _ _ => Except.error { message := "INVALID_TYPE" },
    update := fun _ _ _ => Except.error { message := "INVALID_TYPE" },
    search := fun _ _ => Except.error { message := "INVALID_TYPE" } }

/-- Claim C3 as frozen is false on the code: in the streamable-HTTP
variant the tool handlers have no try/catch, so a backend error thrown
inside soql_query escapes the repository dispatch code as an exception
instead of an error-flagged content result. -/
theorem dispatch_uncaught_counterexample :
    (handleToolCallStreamable failingBackend none
        (ToolCall.soqlQuery "SELECT Id FROM Account")).outcome
      = Except.error { message := "INVALID_TYPE" } := rfl

/-- Claim C3 amended: in the SSE variant every error thrown by a tool
body or by the connection provider is caught at the dispatch boundary and
converted into an error-flagged content result whose text is Error
followed by the message; in the streamable-HTTP variant the identical
error escapes the handler uncaught. -/
theorem dispatch_error_handling (be : Backend) (call : ToolCall) (c : Conn)
    (e : SfError) :
    (runTool be c call = Except.error e →
      handleToolCallSse be (some c) (SseRequest.known call) =
        ⟨some c, { content := ["Error: " ++ e.message], isError := true }, 0⟩) ∧
    (be.connect = Except.error e →
      handleToolCallSse be none (SseRequest.known call) =
        ⟨none, { content := ["Error: " ++ e.message], isError := true }, 1⟩) ∧
    (runTool be c call = Except.error e →
      (handleToolCallStreamable be (some c) call).outcome = Except.error e) ∧
    (be.connect = Except.error e →
      (handleToolCallStreamable be none call).outcome = Except.error e) := by
  refine ⟨fun h => ?_, fun h => ?_, fun h => ?_, fun h => ?_⟩ <;>
    simp [handleToolCallSse, handleToolCallStreamable, h]

/-- Witness for the amended C3 statement at a concrete failing backend. -/
theorem dispatch_error_handling_witness :
    handleToolCallSse failingBackend (some 0)
        (SseRequest.known (ToolCall.soqlQuery "q")) =
      ⟨some 0, { content := ["Error: " ++ "INVALID_TYPE"], isError := true }, 0⟩ ∧
    (handleToolCallStreamable failingBackend (some 0)
        (ToolCall.soqlQuery "q")).outcome =
      Except.error { message := "INVALID_TYPE" } := by
  have h := dispatch_error_handling failingBackend (ToolCall.soqlQuery "q") 0
    { message := "INVALID_TYPE" }
  exact ⟨h.1 rfl, h.2.2.1 rfl⟩

def connectFailBackend : Backend :=
  { failingBackend with connect := Except.error { message := "INVALID_LOGIN" } }

/-- Claim C6: when the lazy connect performed on first use fails, the
connection cache is still unset afterwards (so the next call will attempt
to connect again), and exactly one connect attempt was made during the
failing call, in both variants. -/
theorem connect_failure_cache_unset (be : Backend) (req : SseRequest)
    (call : ToolCall) (e : SfError) (h : be.connect = Except.error e) :
    (handleToolCallSse be none req).sfConnection = none ∧
    (handleToolCallSse be none req).connectCalls = 1 ∧
    (handleToolCallStreamable be none call).sfConnection = none ∧
    (handleToolCallStreamable be none call).connectCalls = 1 := by
  simp [handleToolCallSse, handleToolCallStreamable, h]

/-- Witness for C6 at a concrete backend whose connect fails. -/
theorem connect_failure_cache_unset_witness :
    (handleToolCallSse connectFailBackend none
        (SseRequest.known (ToolCall.soqlQuery "q"))).sfConnection = none ∧
    (handleToolCallSse connectFailBackend none
        (SseRequest.known (ToolCall.soqlQuery "q"))).connectCalls = 1 ∧
    (handleToolCallStreamable connectFailBackend none
        (ToolCall.soqlQuery "q")).sfConnection = none ∧
    (handleToolCallStreamable connectFailBackend none
        (ToolCall.soqlQuery "q")).connectCalls = 1 :=
  connect_failure_cache_unset connectFailBackend
    (SseRequest.known (ToolCall.soqlQuery "q")) (ToolCall.soqlQuery "q")
    { message := "INVALID_LOGIN" } rfl

/-! ## Module-level state touched by a tool call

The module-level mutable state of either variant is the connection cache
sfConnection and the transports table.  A tool dispatch reads and may
write sfConnection; its code never mentions the transports table. -/

structure ServerState where
  sfConnection : Option Conn
  transports : List String
  deriving DecidableEq, Repr

/-- One tool dispatch of the SSE variant as a transformer of the whole
module-level state. -/
def sseToolStep (be : Backend) (st : ServerState) (req : SseRequest) :
    ServerState × ToolResult :=
  let o := handleToolCallSse be st.sfConnection req
  ({ sfConnection := o.sfConnection, transports := st.transports }, o.result)

/-- One tool dispatch of the streamable-HTTP variant as a transformer of
the whole module-level state. -/
def streamToolStep (be : Backend) (st : ServerState) (call : ToolCall) :
    ServerState × Except SfError ToolResult :=
  let o := handleToolCallStreamable be st.sfConnection call
  ({ sfConnection := o.sfConnection, transports := st.transports }, o.outcome)

/-- Claim C10: no tool dispatch, in either variant, for any backend
behavior (including failing backends and unknown tool names), changes the
transports table; the resulting module state differs from the initial one
at most in the connection cache. -/
theorem tool_step_preserves_transports (be : Backend) (st : ServerState)
    (req : SseRequest) (call : ToolCall) :
    (sseToolStep be st req).1.transports = st.transports ∧
    (streamToolStep be st call).1.transports = st.transports ∧
    (sseToolStep be st req).1 =
      { st with sfConnection := (sseToolStep be st req).1.sfConnection } ∧
    (streamToolStep be st call).1 =
      { st with sfConnection := (streamToolStep be st call).1.sfConnection } :=
  ⟨rfl, rfl, rfl, rfl⟩

/-! ## API key gate and HTTP routes

The streamable-HTTP variant guards its three session routes with the
authenticateRequest middleware; the SSE variant defines no such
middleware on its routes.  The middleware models JS string replace of the
first occurrence of the bearer prefix and JS or-else falsiness of the
empty string.  The session table is the set of registered session ids. -/

def stripLeading : List Char → List Char → Option (List Char)
  | [], l => some l
  | _ :: _, [] => none
  | p :: ps, c :: cs => if p = c then stripLeading ps cs else none

def removeFirstAux (pat : List Char) : List Char → List Char
  | [] => []
  | c :: cs =>
    match stripLeading pat (c :: cs) with
    | some rest => rest
    | none => c :: removeFirstAux pat cs

/-- JS s.replace(pat, empty string): remove the first occurrence of pat,
leave the string unchanged when pat does not occur. -/
def jsReplaceFirst (s pat : String) : String :=
  String.mk (removeFirstAux pat.toList s.toList)

/-- The key a request presents: the authorization header with the first
occurrence of the bearer prefix removed, or else (when that is absent or
empty) the api_key query parameter. -/
def providedKey (authHeader queryKey : Option String) : Option String :=
  match authHeader with
  | none => queryKey
  | some h =>
    let r := jsReplaceFirst h "Bearer "
    if r = "" then queryKey else some r

inductive AuthDecision where
  | allow
  | reject401
  deriving DecidableEq, Repr

/-- Shallow embedding of the authenticateRequest middleware of the
streamable-HTTP variant: a no-op when the configured key is absent or
empty, otherwise it admits exactly the requests presenting that key. -/
def authenticateRequest (apiKey authHeader queryKey : Option String) :
    AuthDecision :=
  match apiKey with
  | none => AuthDecision.allow
  | some key =>
    if key = "" then AuthDecision.allow
    else if providedKey authHeader queryKey = some key then AuthDecision.allow
    else AuthDecision.reject401

inductive HttpOutcome where
  | unauthorized
  | handled (sid : String)
  | newSession (sid : String)
  | badRequest (msg : String)
  | okStatus
  deriving DecidableEq, Repr

/-- POST /mcp session logic of the streamable-HTTP variant, after the
gate: reuse a known session, else create one on an initialize request
with a fresh id, else reject.  The fresh argument stands for the random
UUID generated for a new session. -/
def handleMcpPost (table : List String) (fresh : String)
    (sessionId : Option String) (isInit : Bool) : List String × HttpOutcome :=
  if envSet sessionId && table.contains (jsStr sessionId) then
    (table, HttpOutcome.handled (jsStr sessionId))
  else if !envSet sessionId && isInit then
    (fresh :: table, HttpOutcome.newSession fresh)
  else if envSet sessionId && !table.contains (jsStr sessionId) then
    (table, HttpOutcome.badRequest "Invalid session ID")
  else
    (table, HttpOutcome.badRequest "Missing session ID or not an initialize request")

/-- GET /mcp session logic: requires a known session id. -/
def handleMcpGet (table : List String) (sessionId : Option String) :
    List String × HttpOutcome :=
  if !envSet sessionId || !table.contains (jsStr sessionId) then
    (table, HttpOutcome.badRequest "Invalid or missing session ID")
  else
    (table, HttpOutcome.handled (jsStr sessionId))

/-- DELETE /mcp session logic: close and remove a known session,
always report success. -/
def handleMcpDelete (table : List String) (sessionId : Option String) :
    List String × HttpOutcome :=
  if envSet sessionId && table.contains (jsStr sessionId) then
    (table.erase (jsStr sessionId), HttpOutcome.okStatus)
  else
    (table, HttpOutcome.okStatus)

def mcpPostRoute (apiKey authHeader queryKey : Option String)
    (table : List String) (fresh : String) (sessionId : Option String)
    (isInit : Bool) : List String × HttpOutcome :=
  match authenticateRequest apiKey authHeader queryKey with
  | AuthDecision.reject401 => (table, HttpOutcome.unauthorized)
  | AuthDecision.allow => handleMcpPost table fresh sessionId isInit

def mcpGetRoute (apiKey authHeader queryKey : Option String)
    (table : List String) (sessionId : Option String) :
    List String × HttpOutcome :=
  match authenticateRequest apiKey authHeader queryKey with
  | AuthDecision.reject401 => (table, HttpOutcome.unauthorized)
  | AuthDecision.allow => handleMcpGet table sessionId

def mcpDeleteRoute (apiKey authHeader queryKey : Option String)
    (table : List String) (sessionId : Option String) :
    List String × HttpOutcome :=
  match authenticateRequest apiKey authHeader queryKey with
  | AuthDecision.reject401 => (table, HttpOutcome.unauthorized)
  | AuthDecision.allow => handleMcpDelete table sessionId

inductive SseRouteOutcome where
  | streamOpened (sid : String)
  | messageHandled (sid : String)
  | badRequest (msg : String)
  deriving DecidableEq, Repr

/-- GET /sse of the SSE variant: unconditionally constructs a transport
with a fresh session id, registers it and opens the stream.  The route
has no authentication middleware and reads no credential at all. -/
def sseConnectRoute (table : List String) (fresh : String) :
    List String × SseRouteOutcome :=
  (fresh :: table, SseRouteOutcome.streamOpened fresh)

/-- POST /messages of the SSE variant: forward to the transport
registered under the sessionId query parameter, else 400.  No
authentication middleware either. -/
def sseMessagesRoute (table : List String) (sessionId : Option String) :
    List String × SseRouteOutcome :=
  if table.contains (jsStr sessionId) then
    (table, SseRouteOutcome.messageHandled (jsStr sessionId))
  else
    (table, SseRouteOutcome.badRequest "No transport found for sessionId")

/-- Claim C4 as frozen is false on the code: the SSE variant session
routes run their session logic for every request whatever secret may be
configured, since they consult no credential: a bare GET /sse registers a
new transport (the table grows), instead of any unauthorized rejection. -/
theorem sse_route_unauthenticated_counterexample :
    sseConnectRoute [] "s1" = (["s1"], SseRouteOutcome.streamOpened "s1") ∧
    (["s1"] : List String) ≠ [] := by
  exact ⟨rfl, by decide⟩

/-- Claim C4 amended: in the streamable-HTTP variant, when a shared
secret is configured, every /mcp request whose presented key (bearer
header or api_key query parameter) is missing or mismatched is rejected
with 401 before any session logic runs and with the table untouched;
when no secret is configured the gate admits every request.  The SSE
variant routes apply no gate at all: GET /sse always registers a session. -/
theorem api_key_gate_spec (apiKey authHeader queryKey : Option String)
    (table : List String) (fresh : String) (sessionId : Option String)
    (isInit : Bool) :
    (envSet apiKey = false →
      authenticateRequest apiKey authHeader queryKey = AuthDecision.allow) ∧
    (envSet apiKey = true →
      providedKey authHeader queryKey ≠ some (jsStr apiKey) →
      authenticateRequest apiKey authHeader queryKey = AuthDecision.reject401 ∧
      mcpPostRoute apiKey authHeader queryKey table fresh sessionId isInit =
        (table, HttpOutcome.unauthorized) ∧
      mcpGetRoute apiKey authHeader queryKey table sessionId =
        (table, HttpOutcome.unauthorized) ∧
      mcpDeleteRoute apiKey authHeader queryKey table sessionId =
        (table, HttpOutcome.unauthorized)) ∧
    (envSet apiKey = true →
      providedKey authHeader queryKey = some (jsStr apiKey) →
      authenticateRequest apiKey authHeader queryKey = AuthDecision.allow) ∧
    sseConnectRoute table fresh = (fresh :: table, SseRouteOutcome.streamOpened fresh) := by
  refine ⟨fun h => ?_, fun h hne => ?_, fun h heq => ?_, rfl⟩
  · cases apiKey with
    | none => rfl
    | some key =>
      have hkey : key = "" := by simpa [envSet] using h
      simp [authenticateRequest, hkey]
  · cases apiKey with
    | none => simp [envSet] at h
    | some key =>
      have hk : ¬(key = "") := by
        intro hh
        rw [hh] at h
        simp [envSet] at h
      have hpk : ¬(providedKey authHeader queryKey = some key) := by
        simpa [jsStr] using hne
      have hg : authenticateRequest (some key) authHeader queryKey =
          AuthDecision.reject401 := by
        simp [authenticateRequest, hk, hpk]
      exact ⟨hg, by simp [mcpPostRoute, hg], by simp [mcpGetRoute, hg],
        by simp [mcpDeleteRoute, hg]⟩
  · cases apiKey with
    | none => rfl
    | some key =>
      have hk : ¬(key = "") := by
        intro hh
        rw [hh] at h
        simp [envSet] at h
      have hpk : providedKey authHeader queryKey = some key := by
        simpa [jsStr] using heq
      simp [authenticateRequest, hk, hpk]

/-- Witness for the amended C4 statement: with a configured secret, a
request with no credentials is rejected 401 on all three gated routes, a
request presenting the bearer secret is admitted, and the ungated SSE
route registers a session. -/
theorem api_key_gate_spec_witness :
    authenticateRequest (some "sekret") none none = AuthDecision.reject401 ∧
    mcpPostRoute (some "sekret") none none [] "f" none true =
      ([], HttpOutcome.unauthorized) ∧
    authenticateRequest (some "sekret") (some "Bearer sekret") none =
      AuthDecision.allow ∧
    sseConnectRoute [] "f" = (["f"], SseRouteOutcome.streamOpened "f") := by
  have h := api_key_gate_spec (some "sekret") none none [] "f" none true
  have h2 := api_key_gate_spec (some "sekret") (some "Bearer sekret") none [] "f" none true
  exact ⟨(h.2.1 (by decide) (by decide)).1, (h.2.1 (by decide) (by decide)).2.1,
    h2.2.2.1 (by decide) (by decide), h.2.2.2⟩

def isInvalidSessionRejection : HttpOutcome → Bool
  | HttpOutcome.badRequest _ => true
  | _ => false

/-- Claim C7 as frozen is false on the code: a DELETE /mcp request
carrying a session id absent from the table performs no mutation but
responds with success (idempotent close), not with an invalid-session
error. -/
theorem unknown_session_delete_counterexample :
    mcpDeleteRoute none none none [] (some "sess-1") =
      ([], HttpOutcome.okStatus) ∧
    isInvalidSessionRejection HttpOutcome.okStatus = false := by
  exact ⟨by decide, rfl⟩

/-- Claim C7 amended: a request carrying a session id absent from the
table never mutates the table; POST /mcp and GET /mcp (and the SSE
variant POST /messages) respond with an invalid-session error, while
DELETE /mcp responds with success. -/
theorem unknown_session_no_mutation (table : List String) (fresh sid : String)
    (isInit : Bool) (hset : sid ≠ "") (habs : table.contains sid = false) :
    handleMcpPost table fresh (some sid) isInit =
      (table, HttpOutcome.badRequest "Invalid session ID") ∧
    handleMcpGet table (some sid) =
      (table, HttpOutcome.badRequest "Invalid or missing session ID") ∧
    handleMcpDelete table (some sid) = (table, HttpOutcome.okStatus) ∧
    sseMessagesRoute table (some sid) =
      (table, SseRouteOutcome.badRequest "No transport found for sessionId") := by
  have h1 : envSet (some sid) = true := by simp [envSet, hset]
  have h2 : sid ∉ table := by simpa using habs
  refine ⟨?_, ?_, ?_, ?_⟩ <;>
    simp [handleMcpPost, handleMcpGet, handleMcpDelete, sseMessagesRoute,
      h1, h2, habs, jsStr]

/-- Witness for the amended C7 statement at a concrete table and id. -/
theorem unknown_session_no_mutation_witness :
    handleMcpPost ["abc"] "f" (some "zzz") true =
      (["abc"], HttpOutcome.badRequest "Invalid session ID") ∧
    handleMcpGet ["abc"] (some "zzz") =
      (["abc"], HttpOutcome.badRequest "Invalid or missing session ID") ∧
    handleMcpDelete ["abc"] (some "zzz") = (["abc"], HttpOutcome.okStatus) ∧
    sseMessagesRoute ["abc"] (some "zzz") =
      (["abc"], SseRouteOutcome.badRequest "No transport found for sessionId") :=
  unknown_session_no_mutation ["abc"] "f" "zzz" true (by decide) (by decide)

/-! ## Lazy first-use connection under cooperative concurrency

Both variants guard the lazy connect with a plain nullable check: the
handler reads the cache, and when it is empty calls connectToSalesforce
and suspends at the await; the cache is assigned only after the await
resolves.  The event loop is modelled as a small-step scheduler over task
phases: a ready task atomically performs the check (and, when the cache
is empty, issues the connect and suspends); a suspended task resumes by
assigning the cache.  connectCalls counts how many times the backend
authentication was issued. -/

inductive TaskPhase where
  | ready
  | awaitingConnect
  | done
  deriving DecidableEq, Repr

structure ConcState where
  sfConnection : Option Conn
  tasks : List TaskPhase
  connectCalls : Nat
  deriving DecidableEq, Repr

def getTask : List TaskPhase → Nat → TaskPhase
  | [], _ => TaskPhase.done
  | t :: _, 0 => t
  | _ :: ts, n + 1 => getTask ts n

def setTask : List TaskPhase → Nat → TaskPhase → List TaskPhase
  | [], _, _ => []
  | _ :: ts, 0, p => p :: ts
  | t :: ts, n + 1, p => t :: setTask ts n p

/-- Run one synchronous segment of task i: the nullable check-then-call
up to the await when the task is ready, or the resumption after the
connect resolves when it is suspended. -/
def stepTask (s : ConcState) (i : Nat) : ConcState :=
  match getTask s.tasks i with
  | TaskPhase.ready =>
    match s.sfConnection with
    | none =>
      { s with tasks := setTask s.tasks i TaskPhase.awaitingConnect,
               connectCalls := s.connectCalls + 1 }
    | some _ => { s with tasks := setTask s.tasks i TaskPhase.done }
  | TaskPhase.awaitingConnect =>
    { s with sfConnection := some s.connectCalls,
             tasks := setTask s.tasks i TaskPhase.done }
  | TaskPhase.done => s

/-- n tool invocations start with an empty cache and execute their
synchronous segments in the order given by the schedule. -/
def runSchedule (n : Nat) (sched : List Nat) : ConcState :=
  sched.foldl stepTask
    { sfConnection := none, tasks := List.replicate n TaskPhase.ready,
      connectCalls := 0 }

/-- Claim C2 fails on the code: with two concurrent first tool calls,
the interleaving in which the second call runs its nullable check while
the first call is still awaiting connectToSalesforce issues the backend
authentication twice; the strictly sequential interleaving issues it
once.  The plain check-then-set guard therefore does not make the first
caller in-flight authentication be awaited by the second caller. -/
theorem concurrent_first_calls_double_connect :
    (runSchedule 2 [0, 1, 0, 1]).connectCalls = 2 ∧
    (runSchedule 2 [0, 0, 1, 1]).connectCalls = 1 ∧
    (runSchedule 2 [0, 1, 0, 1]).tasks =
      [TaskPhase.done, TaskPhase.done] := by
  exact ⟨rfl, rfl, rfl⟩

end SalesforceMcp
